import Mathlib

/-!
Shallow embedding of the study-planner backend:
  - `chat` embeds the POST /api/chat handler from src/backend/app.py
  - `generate_response` embeds GeminiClient.generate_response from
    src/backend/gemini_client.py (with a call trace for the collaborators)
  - `perform_web_search` embeds perform_web_search from the same file.
Strings are modelled as `List Char`; Python `str.strip` is modelled on the
ASCII whitespace subset, and `str.lower` by the ASCII `Char.toLower`
(the triggers and fixed messages are all ASCII).  External collaborators
(the DuckDuckGo provider and the Gemini model) are parameters; a call that
raises is modelled by `Except.error ()`.
-/

/-- ASCII subset of the whitespace characters Python `str.strip` removes. -/
def pyIsSpace (c : Char) : Bool :=
  c = ' ' || c = '\t' || c = '\n' || c = '\r' || c = Char.ofNat 11 || c = Char.ofNat 12

/-- Python `str.lstrip()` (ASCII whitespace). -/
def lstripCh (l : List Char) : List Char := l.dropWhile pyIsSpace

/-- Python `str.rstrip()` (ASCII whitespace). -/
def rstripCh (l : List Char) : List Char := (l.reverse.dropWhile pyIsSpace).reverse

/-- Python `str.strip()` (ASCII whitespace): both ends. -/
def stripChars (l : List Char) : List Char := rstripCh (lstripCh l)

/-- Python `str.lower()` (ASCII; the code only compares against ASCII literals). -/
def toLowerList (l : List Char) : List Char := l.map Char.toLower

/-- Rest after the first occurrence of `sep`: `text.split(sep, 1)[1]` when `sep`
occurs in the text (`none` when it does not, where Python would raise IndexError;
both call sites are guarded so the separator always occurs). -/
def splitOnceRest (sep : Char) : List Char → Option (List Char)
  | [] => none
  | c :: cs => if c = sep then some cs else splitOnceRest sep cs

/-- A JSON value sitting under the `message` key of the request payload.
Only strings carry content; every other JSON type makes `.strip()` raise. -/
inductive Json where
  | jStr (s : List Char)
  | jNum (n : Int)
  | jBool (b : Bool)
  | jNull
deriving DecidableEq

/-- The request body as the handler sees it: `request.get_json(silent=True) or {}`
yields `{}` for a missing/unparsable/falsy JSON body (`noJson`); a truthy
non-object JSON body such as `[1,2,3]`, `"hi"`, `5` or `true` survives the
`or {}` (`truthyNonObj`, on which `payload.get` then raises AttributeError);
otherwise the payload is a dict that may or may not have a `message` key. -/
inductive ChatBody where
  | noJson
  | truthyNonObj
  | objWithout
  | objWith (v : Json)
deriving DecidableEq

/-- The JSON envelope built by `jsonify`: each call site sets `status` and
exactly one of the `response` / `error` keys. -/
structure Envelope where
  status : List Char
  response : Option (List Char)
  error : Option (List Char)
deriving DecidableEq

def mkError (e : List Char) : Envelope := ⟨"error".data, none, some e⟩

def mkSuccess (t : List Char) : Envelope := ⟨"success".data, some t, none⟩

/-- Outcome of the route: a (status code, envelope) response, or an exception
escaping the handler (e.g. AttributeError from `.strip()` on a non-string),
which Flask turns into an unhandled framework 500. -/
inductive ChatOutcome where
  | response (code : Nat) (env : Envelope)
  | unhandledException
deriving DecidableEq

def noMessageMsg : List Char := "No message provided".data
def tooLongMsg : List Char := "Message too long".data
def unavailableMsg : List Char := "LLM client not available".data
def genErrorMsg : List Char := "Error generating response".data

/-- `payload.get('message', '')`: default is the empty string; `none` models
`payload.get` itself raising AttributeError because the truthy JSON body is
not a dict. -/
def messageField : ChatBody → Option Json
  | .noJson => some (.jStr [])
  | .truthyNonObj => none
  | .objWithout => some (.jStr [])
  | .objWith v => some v

/-- The POST /api/chat handler (src/backend/app.py, `chat`).  `client` is the
module-level GeminiClient, abstracted to its `generate_response` method (which
the handler calls inside try/except).  A non-dict truthy payload makes
`payload.get` raise; a non-string `message` value makes `.strip()` raise;
both escape the handler. -/
def chat (client : Option (List Char → Except Unit (List Char))) (body : ChatBody) :
    ChatOutcome :=
  match messageField body with
  | none => .unhandledException
  | some (.jStr s) =>
    let user_message := stripChars s
    if user_message = [] then .response 400 (mkError noMessageMsg)
    else if 1000 < user_message.length then .response 400 (mkError tooLongMsg)
    else
      match client with
      | none => .response 500 (mkError unavailableMsg)
      | some gen =>
        match gen user_message with
        | .ok t => .response 200 (mkSuccess t)
        | .error _ => .response 500 (mkError genErrorMsg)
  | some _ => .unhandledException

/-- A search result kept by `perform_web_search`. -/
structure SearchResult where
  title : List Char
  href : List Char
  body : List Char
deriving DecidableEq

/-- A raw entry yielded by the DuckDuckGo provider iterator: either not a dict
(skipped by the `isinstance` check), or a dict whose `title`/`href`/`body` keys
may each be absent (`result.get(k, '')` then defaults to the empty string). -/
inductive RawEntry where
  | notDict
  | dict (title href body : Option (List Char))
deriving DecidableEq

/-- `body[:300] + ('...' if len(body) > 300 else '')`. -/
def truncBody (body : List Char) : List Char :=
  body.take 300 ++ (if 300 < body.length then "...".data else [])

/-- Loop body of `perform_web_search`: keep a dict entry only when both its
title and href are truthy (non-empty), truncating the body. -/
def processRaw : RawEntry → Option SearchResult
  | .notDict => none
  | .dict t h b =>
    let title := t.getD []
    let href := h.getD []
    let body := b.getD []
    if title ≠ [] ∧ href ≠ [] then some ⟨title, href, truncBody body⟩ else none

/-- perform_web_search (src/backend/gemini_client.py).  `provider` abstracts
`ddgs.text(query, max_results=max_results)`; if it raises, the except branch
returns the empty list. -/
def perform_web_search (provider : List Char → Nat → Except Unit (List RawEntry))
    (query : List Char) (max_results : Nat) : List SearchResult :=
  match provider query max_results with
  | .error _ => []
  | .ok entries => entries.filterMap processRaw

/-- `s.replace(tgt, rep)` for a single-character target. -/
def pyReplace (tgt : Char) (rep : List Char) : List Char → List Char
  | [] => []
  | c :: cs => if c = tgt then rep ++ pyReplace tgt rep cs else c :: pyReplace tgt rep cs

/-- `.replace('[', '\\[').replace(']', '\\]')` as in the source: two sequential
passes. -/
def escapeMd (s : List Char) : List Char :=
  pyReplace ']' ['\\', ']'] (pyReplace '[' ['\\', '['] s)

/-- One reference line: `f"[{idx}] {title} — {item['href']}\n{body}"` with the
escaped title and body. -/
def refLine (idx : Nat) (item : SearchResult) : List Char :=
  '[' :: (toString idx).data ++ ']' :: ' ' :: escapeMd item.title
    ++ " — ".data ++ item.href ++ '\n' :: escapeMd item.body

/-- `refs_block = "\n\n".join(refs_lines)` over `enumerate(web_results, start=1)`. -/
def refsBlock (web_results : List SearchResult) : List Char :=
  List.intercalate "\n\n".data (web_results.enum.map fun p => refLine (p.1 + 1) p.2)

def system_prompt : List Char :=
  ("You are an AI research assistant. Use the provided web search results to answer the user query. "
    ++ "Synthesize concisely, cite sources inline like [1], [2] where relevant, and include a brief summary.").data

/-- The composed turn submitted to the model on the search path. -/
def composedPrompt (search_query refs_block : List Char) : List Char :=
  "<system>\n".data ++ system_prompt ++ "\n</system>\n".data
    ++ "<user_query>\n".data ++ search_query ++ "\n</user_query>\n".data
    ++ "<web_results>\n".data ++ refs_block ++ "\n</web_results>".data

def notConfiguredMsg : List Char := "AI service is not configured correctly.".data
def noResultsMsg : List Char :=
  "I could not retrieve web results right now. Please try again.".data
def apologyMsg : List Char :=
  'I' :: Char.ofNat 39 ::
    "m sorry, I encountered an error while processing your request.".data

/-- The `search_query` variable of generate_response: the two trigger tests on
`lower = text.strip().lower()`, extracting `text.split(sep, 1)[1].strip()`.
Both branches are guarded so the separator occurs in `text`; `getD []` never
takes its default there. -/
def triggerQuery (text : List Char) : Option (List Char) :=
  let lower := toLowerList (stripChars text)
  if List.isPrefixOf "search:".data lower then
    some (stripChars ((splitOnceRest ':' text).getD []))
  else if List.isPrefixOf "/search ".data lower then
    some (stripChars ((splitOnceRest ' ' text).getD []))
  else none

/-- Execution trace of one generate_response call: the (query, max_results)
invocations of the search collaborator, the turns submitted to the model, and
the returned string. -/
structure Trace where
  searchCalls : List (List Char × Nat)
  sentMessages : List (List Char)
  result : List Char
deriving DecidableEq

/-- GeminiClient.generate_response (src/backend/gemini_client.py).
`configured` is `self.chat` being non-None; `search` abstracts
perform_web_search and `send` abstracts `self.chat.send_message(...).text`;
an `Except.error` from either models an exception, caught by the enclosing
try/except and converted to `apologyMsg`.  Note `if search_query:` is Python
truthiness: an empty extracted query falls through to the normal chat path. -/
def generate_response (configured : Bool)
    (search : List Char → Nat → Except Unit (List SearchResult))
    (send : List Char → Except Unit (List Char))
    (user_input : List Char) : Trace :=
  if !configured then ⟨[], [], notConfiguredMsg⟩
  else
    let text := user_input
    match triggerQuery text with
    | some search_query =>
      if search_query ≠ [] then
        match search search_query 6 with
        | .error _ => ⟨[(search_query, 6)], [], apologyMsg⟩
        | .ok web_results =>
          if web_results = [] then ⟨[(search_query, 6)], [], noResultsMsg⟩
          else
            let composed := composedPrompt search_query (refsBlock web_results)
            match send composed with
            | .ok r => ⟨[(search_query, 6)], [composed], r⟩
            | .error _ => ⟨[(search_query, 6)], [composed], apologyMsg⟩
      else
        match send text with
        | .ok r => ⟨[], [text], r⟩
        | .error _ => ⟨[], [text], apologyMsg⟩
    | none =>
      match send text with
      | .ok r => ⟨[], [text], r⟩
      | .error _ => ⟨[], [text], apologyMsg⟩

/-- The query a call actually searches with: the extracted trigger query when it
is truthy (non-empty), else nothing. -/
def effectiveQuery (text : List Char) : Option (List Char) :=
  match triggerQuery text with
  | some q => if q = [] then none else some q
  | none => none

/-- Spec-side single-pass escape (from the claim wording): each literal `[`
becomes `\[` and each literal `]` becomes `\]`, in one traversal of the raw
input, so escaping can never be applied twice. -/
def escSpecOnce : List Char → List Char
  | [] => []
  | c :: cs =>
    if c = '[' then '\\' :: '[' :: escSpecOnce cs
    else if c = ']' then '\\' :: ']' :: escSpecOnce cs
    else c :: escSpecOnce cs

/-- Spec-side reference entry i (1-based): `[i] <title escaped> — <href>\n<body escaped>`
with href left unescaped. -/
def specRefEntry (i : Nat) (r : SearchResult) : List Char :=
  "[".data ++ (toString i).data ++ "] ".data ++ escSpecOnce r.title
    ++ " — ".data ++ r.href ++ "\n".data ++ escSpecOnce r.body

/-- Spec-side reference block: one entry per result in order, 1-based indices,
joined by a blank line. -/
def specRefsBlock (results : List SearchResult) : List Char :=
  List.intercalate "\n\n".data (results.enum.map fun p => specRefEntry (p.1 + 1) p.2)

/-- Request bodies that reach the validation chain with a string message:
the payload defaulted to `{}` (missing/unparsable/falsy body), or is an
object without a `message` key, or with a `message` key holding a JSON
string.  Excluded are truthy non-object bodies (where `payload.get` raises)
and non-string `message` values (where `.strip()` raises). -/
def stringOrAbsentMessage : ChatBody → Prop
  | .noJson => True
  | .truthyNonObj => False
  | .objWithout => True
  | .objWith (.jStr _) => True
  | .objWith _ => False

/-- A chat outcome that is a well-formed envelope: a real HTTP response whose
body has exactly one of `response` (with status success) or `error` (with
status error) populated. -/
def wellFormedOutcome : ChatOutcome → Prop
  | .unhandledException => False
  | .response _ env =>
    (env.status = "success".data ∧ env.response.isSome ∧ env.error = none)
      ∨ (env.status = "error".data ∧ env.response = none ∧ env.error.isSome)

theorem dropWhile_app (p : Char → Bool) (xs ys : List Char) :
    List.dropWhile p (xs ++ ys)
      = if List.dropWhile p xs = [] then List.dropWhile p ys
        else List.dropWhile p xs ++ ys := by
  induction xs with
  | nil => simp
  | cons c cs ih =>
    by_cases h : p c
    · simpa [List.dropWhile_cons, h] using ih
    · simp [List.dropWhile_cons, h]

theorem rstrip_append (a r : List Char) :
    rstripCh (a ++ r) = if rstripCh r = [] then rstripCh a else a ++ rstripCh r := by
  unfold rstripCh
  rw [List.reverse_append, dropWhile_app]
  by_cases h : List.dropWhile pyIsSpace r.reverse = []
  · rw [if_pos h, if_pos (by simp [h])]
  · rw [if_neg h, if_neg (by simp [h]), List.reverse_append, List.reverse_reverse]

theorem rstrip_eq_nil_iff (l : List Char) :
    rstripCh l = [] ↔ ∀ c ∈ l, pyIsSpace c := by
  simp [rstripCh, List.dropWhile_eq_nil_iff]

theorem forall_mem_dropWhile (p : Char → Bool) (l : List Char) :
    (∀ c ∈ List.dropWhile p l, p c) ↔ ∀ c ∈ l, p c := by
  induction l with
  | nil => simp
  | cons c cs ih =>
    by_cases h : p c
    · simpa [List.dropWhile_cons, h] using ih
    · simp [List.dropWhile_cons, h]

theorem strip_eq_nil_iff (l : List Char) :
    stripChars l = [] ↔ ∀ c ∈ l, pyIsSpace c := by
  rw [stripChars, rstrip_eq_nil_iff, lstripCh, forall_mem_dropWhile]

theorem strip_eq_nil_iff_rstrip (l : List Char) :
    stripChars l = [] ↔ rstripCh l = [] := by
  rw [strip_eq_nil_iff, rstrip_eq_nil_iff]

theorem lstrip_cons_of_not_space (c : Char) (l : List Char) (h : pyIsSpace c = false) :
    lstripCh (c :: l) = c :: l := by
  simp [lstripCh, List.dropWhile_cons, h]

theorem isPrefixOf_append_self (a b : List Char) :
    List.isPrefixOf a (a ++ b) = true := by
  induction a with
  | nil => simp [List.isPrefixOf]
  | cons c cs ih => simp [List.isPrefixOf, ih]

theorem splitOnce_colon_search (r : List Char) :
    splitOnceRest ':' ("search:".data ++ r) = some r := by
  show splitOnceRest ':' ('s' :: 'e' :: 'a' :: 'r' :: 'c' :: 'h' :: ':' :: r) = some r
  simp [splitOnceRest]

theorem splitOnce_space_slash (r : List Char) :
    splitOnceRest ' ' ("/search ".data ++ r) = some r := by
  show splitOnceRest ' ' ('/' :: 's' :: 'e' :: 'a' :: 'r' :: 'c' :: 'h' :: ' ' :: r) = some r
  simp [splitOnceRest]

theorem strip_slash_append (r : List Char) :
    stripChars ("/search ".data ++ r)
      = if rstripCh r = [] then "/search".data else "/search ".data ++ rstripCh r := by
  have hlit : ("/search ".data ++ r) = '/' :: ("search ".data ++ r) := rfl
  rw [stripChars, hlit, lstrip_cons_of_not_space _ _ (by decide), ← hlit, rstrip_append]
  by_cases h : rstripCh r = []
  · rw [if_pos h, if_pos h]
    decide
  · rw [if_neg h, if_neg h]

theorem strip_colon_append (r : List Char) :
    stripChars ("search:".data ++ r)
      = if rstripCh r = [] then "search:".data else "search:".data ++ rstripCh r := by
  have hlit : ("search:".data ++ r) = 's' :: ("earch:".data ++ r) := rfl
  rw [stripChars, hlit, lstrip_cons_of_not_space _ _ (by decide), ← hlit, rstrip_append]
  by_cases h : rstripCh r = []
  · rw [if_pos h, if_pos h]
    decide
  · rw [if_neg h, if_neg h]

theorem triggerQuery_slash_ws (r : List Char) (h : rstripCh r = []) :
    triggerQuery ("/search ".data ++ r) = none := by
  unfold triggerQuery
  rw [strip_slash_append, if_pos h]
  have h1 : List.isPrefixOf "search:".data (toLowerList "/search".data) = false := by decide
  have h2 : List.isPrefixOf "/search ".data (toLowerList "/search".data) = false := by decide
  simp [h1, h2]

theorem isPrefixOf_cons_ne (a b : Char) (as bs : List Char) (h : (a == b) = false) :
    List.isPrefixOf (a :: as) (b :: bs) = false := by
  simp [List.isPrefixOf, h]

theorem triggerQuery_slash (r : List Char) (h : rstripCh r ≠ []) :
    triggerQuery ("/search ".data ++ r) = some (stripChars r) := by
  have hfalse : List.isPrefixOf "search:".data
      ("/search ".data ++ List.map Char.toLower (rstripCh r)) = false := by
    show List.isPrefixOf ('s' :: "earch:".data)
      ('/' :: ("search ".data ++ List.map Char.toLower (rstripCh r))) = false
    exact isPrefixOf_cons_ne 's' '/' _ _ (by decide)
  have htrue := isPrefixOf_append_self "/search ".data (List.map Char.toLower (rstripCh r))
  have hlow : List.map Char.toLower "/search ".data = "/search ".data := by decide
  unfold triggerQuery
  rw [strip_slash_append, if_neg h]
  simp only [toLowerList, List.map_append, hlow, hfalse, htrue]
  simp [splitOnceRest]

theorem triggerQuery_colon (r : List Char) :
    triggerQuery ("search:".data ++ r) = some (stripChars r) := by
  by_cases h : rstripCh r = []
  · unfold triggerQuery
    rw [strip_colon_append, if_pos h]
    have htrue : List.isPrefixOf "search:".data (toLowerList "search:".data) = true := by
      decide
    simp [htrue, splitOnceRest]
  · unfold triggerQuery
    rw [strip_colon_append, if_neg h]
    have hlow : List.map Char.toLower "search:".data = "search:".data := by decide
    have htrue := isPrefixOf_append_self "search:".data (List.map Char.toLower (rstripCh r))
    simp only [toLowerList, List.map_append, hlow, htrue]
    simp [splitOnceRest]

theorem effQuery_slash_eq_colon (r : List Char) :
    effectiveQuery ("/search ".data ++ r) = effectiveQuery ("search:".data ++ r) := by
  by_cases h : rstripCh r = []
  · have hs : stripChars r = [] := (strip_eq_nil_iff_rstrip r).mpr h
    simp only [effectiveQuery, triggerQuery_slash_ws r h, triggerQuery_colon r]
    simp [hs]
  · simp only [effectiveQuery, triggerQuery_slash r h, triggerQuery_colon r]

theorem searchCalls_eq (search : List Char → Nat → Except Unit (List SearchResult))
    (send : List Char → Except Unit (List Char)) (text : List Char) :
    (generate_response true search send text).searchCalls
      = match effectiveQuery text with
        | none => []
        | some q => [(q, 6)] := by
  simp only [generate_response, effectiveQuery, Bool.not_true]
  cases htq : triggerQuery text with
  | none =>
    cases hs : send text <;> simp [htq, hs]
  | some q =>
    by_cases hq : q = []
    · cases hs : send text <;> simp [htq, hq, hs]
    · simp only [htq, if_neg hq, ite_not]
      cases hsr : search q 6 with
      | error e => simp [hq]
      | ok web =>
        by_cases hw : web = []
        · simp [hw, hq]
        · cases hsend : send (composedPrompt q (refsBlock web)) <;> simp [hw, hq, hsend]

theorem escapeMd_eq_once (s : List Char) : escapeMd s = escSpecOnce s := by
  induction s with
  | nil => rfl
  | cons c cs ih =>
    simp only [escapeMd] at ih ⊢
    by_cases h1 : c = '['
    · subst h1
      simp [pyReplace, escSpecOnce, ih]
    · by_cases h2 : c = ']'
      · subst h2
        simp [pyReplace, escSpecOnce, ih]
      · simp [pyReplace, escSpecOnce, h1, h2, ih]

/-- C1: for POST /api/chat with a string message, validation runs on the
whitespace-trimmed message in fail-fast order: empty → 400 "No message
provided"; length > 1000 → 400 "Message too long"; no client → 500 "LLM
client not available"; otherwise the trimmed message is delegated to the
composer and its outcome determines the response. -/
theorem chat_validation_fail_fast
    (client : Option (List Char → Except Unit (List Char))) (s : List Char) :
    (stripChars s = [] →
       chat client (.objWith (.jStr s)) = .response 400 (mkError noMessageMsg)) ∧
    (stripChars s ≠ [] → 1000 < (stripChars s).length →
       chat client (.objWith (.jStr s)) = .response 400 (mkError tooLongMsg)) ∧
    (stripChars s ≠ [] → (stripChars s).length ≤ 1000 → client = none →
       chat client (.objWith (.jStr s)) = .response 500 (mkError unavailableMsg)) ∧
    (∀ gen, stripChars s ≠ [] → (stripChars s).length ≤ 1000 → client = some gen →
       chat client (.objWith (.jStr s))
         = match gen (stripChars s) with
           | .ok t => .response 200 (mkSuccess t)
           | .error _ => .response 500 (mkError genErrorMsg)) := by
  refine ⟨?_, ?_, ?_, ?_⟩
  · intro h
    simp [chat, messageField, h]
  · intro h1 h2
    simp only [chat, messageField]
    rw [if_neg h1, if_pos h2]
  · intro h1 h2 h3
    simp only [chat, messageField]
    rw [if_neg h1, if_neg (by omega), h3]
  · intro gen h1 h2 h3
    simp only [chat, messageField]
    rw [if_neg h1, if_neg (by omega), h3]

set_option maxRecDepth 100000 in
theorem chat_validation_fail_fast_witness :
    chat none (.objWith (.jStr "   ".data)) = .response 400 (mkError noMessageMsg) ∧
    chat none (.objWith (.jStr (List.replicate 1001 'a')))
      = .response 400 (mkError tooLongMsg) ∧
    chat none (.objWith (.jStr "Hello".data)) = .response 500 (mkError unavailableMsg) ∧
    chat (some fun _ => Except.ok "Hi there".data) (.objWith (.jStr "Hello".data))
      = .response 200 (mkSuccess "Hi there".data) :=
  ⟨(chat_validation_fail_fast none "   ".data).1 (by decide),
   (chat_validation_fail_fast none (List.replicate 1001 'a')).2.1 (by decide) (by decide),
   (chat_validation_fail_fast none "Hello".data).2.2.1 (by decide) (by decide) rfl,
   ((chat_validation_fail_fast (some fun _ => Except.ok "Hi there".data)
       "Hello".data).2.2.2 _ (by decide) (by decide) rfl).trans rfl⟩

/-- C2 counterexample: a request whose `message` field is the JSON number 5
does not get a JSON envelope (`.strip()` raises AttributeError), and neither
does a request whose body is a truthy non-object JSON value such as `[1,2,3]`
(`payload.get` raises AttributeError); both escape the handler as unhandled
framework errors. -/
theorem chat_nonstring_message_unhandled :
    chat none (.objWith (.jNum 5)) = .unhandledException ∧
    chat none .truthyNonObj = .unhandledException :=
  ⟨rfl, rfl⟩

/-- C2 (amended): for every request whose body is missing, unparsable or falsy
JSON (so the payload defaults to `{}`), or is a JSON object lacking a
`message` field, or a JSON object whose `message` field is a JSON string, the
handler returns a well-formed envelope with exactly one of `response` (status
success) or `error` (status error) populated; a truthy non-object body or a
non-string `message` value instead raises out of the handler as an unhandled
framework error. -/
theorem chat_envelope_well_formed
    (client : Option (List Char → Except Unit (List Char))) (body : ChatBody)
    (h : stringOrAbsentMessage body) :
    wellFormedOutcome (chat client body) := by
  have key : ∀ s : List Char, wellFormedOutcome (chat client (.objWith (.jStr s))) := by
    intro s
    simp only [chat, messageField]
    by_cases h1 : stripChars s = []
    · simp [h1, wellFormedOutcome, mkError]
    · by_cases h2 : 1000 < (stripChars s).length
      · simp [h1, h2, wellFormedOutcome, mkError]
      · cases client with
        | none => simp [h1, h2, wellFormedOutcome, mkError]
        | some gen =>
          cases hg : gen (stripChars s) <;>
            simp [h1, h2, hg, wellFormedOutcome, mkError, mkSuccess]
  cases body with
  | noJson => exact key []
  | truthyNonObj => exact h.elim
  | objWithout => exact key []
  | objWith v =>
    cases v with
    | jStr s => exact key s
    | jNum n => exact h.elim
    | jBool b => exact h.elim
    | jNull => exact h.elim

theorem chat_envelope_well_formed_witness :
    stringOrAbsentMessage ChatBody.noJson ∧ wellFormedOutcome (chat none ChatBody.noJson) :=
  ⟨trivial, chat_envelope_well_formed none ChatBody.noJson trivial⟩

/-- C3 counterexample: for input "search:" (trimmed form starts with the
`search:` trigger, remainder trims to empty) the composer performs no search
call at all — Python `if search_query:` is falsy on the empty string — and
instead sends the raw text to the model as a normal chat turn. -/
theorem generate_response_empty_query_counterexample :
    (generate_response true (fun _ _ => Except.ok []) (fun t => Except.ok t)
        "search:".data).searchCalls = [] ∧
    (generate_response true (fun _ _ => Except.ok []) (fun t => Except.ok t)
        "search:".data).sentMessages = ["search:".data] := by
  exact ⟨rfl, rfl⟩

/-- C3 (amended): for every input text whose trimmed form starts,
case-insensitively, with `search:` and whose trimmed remainder after the first
colon is non-empty, the composer invokes the search collaborator exactly once,
with that trimmed remainder as the query and a maximum of 6 results. -/
theorem generate_response_search_trigger
    (search : List Char → Nat → Except Unit (List SearchResult))
    (send : List Char → Except Unit (List Char)) (text : List Char)
    (hpre : List.isPrefixOf "search:".data (toLowerList (stripChars text)) = true)
    (hq : stripChars ((splitOnceRest ':' text).getD []) ≠ []) :
    (generate_response true search send text).searchCalls
      = [(stripChars ((splitOnceRest ':' text).getD []), 6)] := by
  have htq : triggerQuery text = some (stripChars ((splitOnceRest ':' text).getD [])) := by
    unfold triggerQuery
    simp [hpre]
  rw [searchCalls_eq]
  simp [effectiveQuery, htq, hq]

theorem generate_response_search_trigger_witness :
    List.isPrefixOf "search:".data (toLowerList (stripChars "search: cats".data)) = true ∧
    stripChars ((splitOnceRest ':' "search: cats".data).getD []) ≠ [] ∧
    (generate_response true (fun _ _ => Except.ok []) (fun t => Except.ok t)
        "search: cats".data).searchCalls
      = [(stripChars ((splitOnceRest ':' "search: cats".data).getD []), 6)] :=
  ⟨by decide, by decide, generate_response_search_trigger _ _ _ (by decide) (by decide)⟩

/-- C4: when the trimmed input matches the `/search ` trigger (and not
`search:`), the extracted query is the remainder of the text after its first
space, trimmed; both trigger forms produce identical search invocations for an
identical remainder, and in particular "/search cats" and "search: cats" both
extract the query "cats". -/
theorem slash_trigger_query_extraction :
    (∀ text : List Char,
        List.isPrefixOf "search:".data (toLowerList (stripChars text)) = false →
        List.isPrefixOf "/search ".data (toLowerList (stripChars text)) = true →
        triggerQuery text = some (stripChars ((splitOnceRest ' ' text).getD []))) ∧
    (∀ (search : List Char → Nat → Except Unit (List SearchResult))
       (send : List Char → Except Unit (List Char)) (r : List Char),
        (generate_response true search send ("/search ".data ++ r)).searchCalls
          = (generate_response true search send ("search:".data ++ r)).searchCalls) ∧
    (effectiveQuery "/search cats".data = some "cats".data ∧
     effectiveQuery "search: cats".data = some "cats".data) := by
  refine ⟨?_, ?_, by decide, by decide⟩
  · intro text h1 h2
    unfold triggerQuery
    simp [h1, h2]
  · intro search send r
    rw [searchCalls_eq, searchCalls_eq, effQuery_slash_eq_colon]

theorem slash_trigger_query_extraction_witness :
    triggerQuery "/search cats".data
      = some (stripChars ((splitOnceRest ' ' "/search cats".data).getD [])) ∧
    (generate_response true (fun _ _ => Except.ok []) (fun t => Except.ok t)
        ("/search ".data ++ "cats".data)).searchCalls
      = (generate_response true (fun _ _ => Except.ok []) (fun t => Except.ok t)
        ("search:".data ++ "cats".data)).searchCalls :=
  ⟨slash_trigger_query_extraction.1 "/search cats".data (by decide) (by decide),
   slash_trigger_query_extraction.2.1 _ _ "cats".data⟩

/-- C5: for every non-empty result list, the assembled reference block equals
the spec-side block: one entry per result in order, entry i (1-based) being
`[i] <title escaped> — <href>\n<body escaped>` with a genuinely single-pass
escape of `[` and `]` applied once to the raw title and body (href untouched),
entries joined by a blank line. -/
theorem refsBlock_spec_refinement (results : List SearchResult) (_h : results ≠ []) :
    refsBlock results = specRefsBlock results := by
  have hline : ∀ (i : Nat) (r : SearchResult), refLine i r = specRefEntry i r := by
    intro i r
    unfold refLine specRefEntry
    rw [escapeMd_eq_once, escapeMd_eq_once]
    have e1 : "[".data = ['['] := rfl
    have e2 : "] ".data = [']', ' '] := rfl
    have e3 : "\n".data = ['\n'] := rfl
    rw [e1, e2, e3]
    simp
  unfold refsBlock specRefsBlock
  have hfun : (fun (p : Nat × SearchResult) => refLine (p.1 + 1) p.2)
      = fun p => specRefEntry (p.1 + 1) p.2 := funext fun p => hline _ _
  rw [hfun]

theorem refsBlock_spec_refinement_witness :
    ([⟨"[x]".data, "http://a".data, "b]".data⟩] : List SearchResult) ≠ [] ∧
    refsBlock [⟨"[x]".data, "http://a".data, "b]".data⟩]
      = specRefsBlock [⟨"[x]".data, "http://a".data, "b]".data⟩] :=
  ⟨by decide, refsBlock_spec_refinement _ (by decide)⟩

/-- C6: with a configured client and a valid message whose trimmed form matches
no search trigger, the trimmed message is submitted to the model unmodified as
the only conversation turn, and when the model returns T the handler responds
200 with a success envelope carrying T. -/
theorem chat_success_passthrough
    (search : List Char → Nat → Except Unit (List SearchResult))
    (send : List Char → Except Unit (List Char)) (s T : List Char)
    (h1 : stripChars s ≠ []) (h2 : (stripChars s).length ≤ 1000)
    (h3 : triggerQuery (stripChars s) = none)
    (h4 : send (stripChars s) = Except.ok T) :
    chat (some fun m => Except.ok (generate_response true search send m).result)
        (.objWith (.jStr s)) = .response 200 (mkSuccess T) ∧
    (generate_response true search send (stripChars s)).sentMessages = [stripChars s] := by
  have hgen : generate_response true search send (stripChars s)
      = ⟨[], [stripChars s], T⟩ := by
    simp [generate_response, h3, h4]
  constructor
  · simp only [chat, messageField]
    rw [if_neg h1, if_neg (by omega)]
    simp [hgen]
  · rw [hgen]

theorem chat_success_passthrough_witness :
    chat (some fun m => Except.ok (generate_response true (fun _ _ => Except.ok [])
          (fun _ => Except.ok "Hi there".data) m).result)
        (.objWith (.jStr "Hello".data)) = .response 200 (mkSuccess "Hi there".data) ∧
    (generate_response true (fun _ _ => Except.ok []) (fun _ => Except.ok "Hi there".data)
        (stripChars "Hello".data)).sentMessages = [stripChars "Hello".data] :=
  chat_success_passthrough _ _ _ _ (by decide) (by decide) (by decide) rfl

/-- C7: for every input, if the search call or a model invocation actually made
by the composer raises, generate_response returns exactly the fixed apology
string; being a total function into Trace, it never propagates the exception. -/
theorem generate_response_catches_exceptions (configured : Bool)
    (search : List Char → Nat → Except Unit (List SearchResult))
    (send : List Char → Except Unit (List Char)) (text : List Char)
    (h : (∃ q n, (q, n) ∈ (generate_response configured search send text).searchCalls ∧
            search q n = Except.error ())
       ∨ (∃ m, m ∈ (generate_response configured search send text).sentMessages ∧
            send m = Except.error ())) :
    (generate_response configured search send text).result = apologyMsg := by
  cases configured with
  | false => simp [generate_response] at h
  | true =>
    cases htq : triggerQuery text with
    | none =>
      cases hs : send text with
      | error e => simp [generate_response, htq, hs]
      | ok r =>
        exfalso
        simp [generate_response, htq, hs] at h
    | some q =>
      by_cases hq : q = []
      · cases hs : send text with
        | error e => simp [generate_response, htq, hq, hs]
        | ok r =>
          exfalso
          simp [generate_response, htq, hq, hs] at h
      · cases hsr : search q 6 with
        | error e => simp [generate_response, htq, hq, hsr]
        | ok web =>
          by_cases hw : web = []
          · exfalso
            simp [generate_response, htq, hq, hsr, hw] at h
            obtain ⟨q1, n, ⟨rfl, rfl⟩, herr⟩ := h
            rw [hsr] at herr
            simp at herr
          · cases hsend : send (composedPrompt q (refsBlock web)) with
            | error e => simp [generate_response, htq, hq, hsr, hw, hsend]
            | ok r =>
              exfalso
              simp [generate_response, htq, hq, hsr, hw, hsend] at h
              obtain ⟨q1, n, ⟨rfl, rfl⟩, herr⟩ := h
              rw [hsr] at herr
              simp at herr

theorem generate_response_catches_exceptions_witness :
    (generate_response true (fun _ _ => Except.error ()) (fun t => Except.ok t)
        "search: x".data).result = apologyMsg :=
  generate_response_catches_exceptions true _ _ _
    (Or.inl ⟨"x".data, 6, by decide, rfl⟩)

/-- C8: when a triggered query gets an empty result list from the search
collaborator, the composer returns exactly the fixed "could not retrieve"
message without submitting anything to the model, and the handler surfaces it
as HTTP 200 with a success envelope. -/
theorem empty_results_apologetic_success
    (search : List Char → Nat → Except Unit (List SearchResult))
    (send : List Char → Except Unit (List Char)) (s q : List Char)
    (h1 : stripChars s ≠ []) (h2 : (stripChars s).length ≤ 1000)
    (h3 : triggerQuery (stripChars s) = some q) (h4 : q ≠ [])
    (h5 : search q 6 = Except.ok []) :
    (generate_response true search send (stripChars s)).result = noResultsMsg ∧
    (generate_response true search send (stripChars s)).sentMessages = [] ∧
    chat (some fun m => Except.ok (generate_response true search send m).result)
        (.objWith (.jStr s)) = .response 200 (mkSuccess noResultsMsg) := by
  have hgen : generate_response true search send (stripChars s)
      = ⟨[(q, 6)], [], noResultsMsg⟩ := by
    simp [generate_response, h3, h4, h5]
  refine ⟨by rw [hgen], by rw [hgen], ?_⟩
  simp only [chat, messageField]
  rw [if_neg h1, if_neg (by omega)]
  simp [hgen]

theorem empty_results_apologetic_success_witness :
    (generate_response true (fun _ _ => Except.ok []) (fun t => Except.ok t)
        (stripChars "search: cats".data)).result = noResultsMsg ∧
    (generate_response true (fun _ _ => Except.ok []) (fun t => Except.ok t)
        (stripChars "search: cats".data)).sentMessages = [] ∧
    chat (some fun m => Except.ok (generate_response true (fun _ _ => Except.ok [])
          (fun t => Except.ok t) m).result)
        (.objWith (.jStr "search: cats".data))
      = .response 200 (mkSuccess noResultsMsg) :=
  empty_results_apologetic_success _ _ _ "cats".data
    (by decide) (by decide) (by decide) (by decide) rfl

/-- C9: every result kept by perform_web_search stores `truncBody` of some raw
body, where truncation is the identity for raw bodies of at most 300
characters and `first 300 characters ++ "..."` for longer ones; hence every
stored body has at most 303 characters. -/
theorem perform_web_search_body_truncation
    (provider : List Char → Nat → Except Unit (List RawEntry))
    (query : List Char) (max_results : Nat) (r : SearchResult)
    (hmem : r ∈ perform_web_search provider query max_results) :
    (∃ b : List Char, r.body = truncBody b) ∧
    (∀ b : List Char, b.length ≤ 300 → truncBody b = b) ∧
    (∀ b : List Char, 300 < b.length → truncBody b = b.take 300 ++ "...".data) ∧
    r.body.length ≤ 303 := by
  have hb : ∃ b, r.body = truncBody b := by
    unfold perform_web_search at hmem
    cases hp : provider query max_results with
    | error e =>
      rw [hp] at hmem
      simp at hmem
    | ok entries =>
      rw [hp] at hmem
      rw [List.mem_filterMap] at hmem
      obtain ⟨raw, _, hraw⟩ := hmem
      cases raw with
      | notDict => simp [processRaw] at hraw
      | dict t h b =>
        simp only [processRaw] at hraw
        split at hraw
        · refine ⟨b.getD [], ?_⟩
          injection hraw with hr
          rw [← hr]
        · simp at hraw
  have htrunc1 : ∀ b : List Char, b.length ≤ 300 → truncBody b = b := by
    intro b hble
    unfold truncBody
    rw [if_neg (by omega), List.take_of_length_le hble, List.append_nil]
  have htrunc2 : ∀ b : List Char, 300 < b.length → truncBody b = b.take 300 ++ "...".data := by
    intro b hbgt
    unfold truncBody
    rw [if_pos hbgt]
  refine ⟨hb, htrunc1, htrunc2, ?_⟩
  obtain ⟨b, hbeq⟩ := hb
  rw [hbeq]
  unfold truncBody
  have hdots : ("...".data).length = 3 := rfl
  by_cases hc : 300 < b.length
  · rw [if_pos hc]
    rw [List.length_append, List.length_take, hdots]
    omega
  · rw [if_neg hc]
    rw [List.length_append, List.length_take]
    simp only [List.length_nil]
    omega

set_option maxRecDepth 100000 in
theorem perform_web_search_body_truncation_witness :
    (⟨"t".data, "h".data, truncBody (List.replicate 301 'x')⟩ : SearchResult)
      ∈ perform_web_search
          (fun _ _ => Except.ok
            [RawEntry.dict (some "t".data) (some "h".data) (some (List.replicate 301 'x'))])
          "q".data 6 ∧
    (⟨"t".data, "h".data, truncBody (List.replicate 301 'x')⟩ : SearchResult).body.length
      ≤ 303 :=
  ⟨by decide,
   (perform_web_search_body_truncation
      (fun _ _ => Except.ok
        [RawEntry.dict (some "t".data) (some "h".data) (some (List.replicate 301 'x'))])
      "q".data 6 _ (by decide)).2.2.2⟩

/-- C10: every result returned by perform_web_search has a non-empty title and
a non-empty href; entries that are not dicts or lack a truthy title or href are
dropped, so the output can be shorter than the raw provider output (and than
max_results), as the all-dropped concrete instance shows. -/
theorem perform_web_search_kept_invariant :
    (∀ (provider : List Char → Nat → Except Unit (List RawEntry))
       (query : List Char) (n : Nat) (r : SearchResult),
        r ∈ perform_web_search provider query n → r.title ≠ [] ∧ r.href ≠ []) ∧
    (∀ (provider : List Char → Nat → Except Unit (List RawEntry))
       (query : List Char) (n : Nat) (entries : List RawEntry),
        provider query n = Except.ok entries →
        (perform_web_search provider query n).length ≤ entries.length) ∧
    perform_web_search (fun _ _ => Except.ok (List.replicate 6 RawEntry.notDict))
        "q".data 6 = [] := by
  refine ⟨?_, ?_, by decide⟩
  · intro provider query n r hmem
    unfold perform_web_search at hmem
    cases hp : provider query n with
    | error e =>
      rw [hp] at hmem
      simp at hmem
    | ok entries =>
      rw [hp] at hmem
      rw [List.mem_filterMap] at hmem
      obtain ⟨raw, _, hraw⟩ := hmem
      cases raw with
      | notDict => simp [processRaw] at hraw
      | dict t h b =>
        simp only [processRaw] at hraw
        split at hraw
        · rename_i hcond
          injection hraw with hr
          rw [← hr]
          exact ⟨hcond.1, hcond.2⟩
        · simp at hraw
  · intro provider query n entries hp
    unfold perform_web_search
    rw [hp]
    exact List.length_filterMap_le _ _

theorem perform_web_search_kept_invariant_witness :
    (⟨"t".data, "h".data, "b".data⟩ : SearchResult).title ≠ [] ∧
    (⟨"t".data, "h".data, "b".data⟩ : SearchResult).href ≠ [] :=
  perform_web_search_kept_invariant.1
    (fun _ _ => Except.ok [RawEntry.dict (some "t".data) (some "h".data) (some "b".data)])
    "q".data 6 _ (by decide)
